import Mathlib

/-!
Verification development for the SimOpConsole motion-platform controller.

The Python sources are shallowly embedded over exact rationals:
pure numeric code becomes Lean functions on `ℚ`, the stateful control
core (`SimInterfaceCore` in `siminterface.py`) becomes explicit state
passing over a `CoreState` record, and fallible code returns `Except`.

Python-specific numeric primitives are modelled explicitly:
`round` (banker's rounding, half to even) as `pyRound`, and `int`
(truncation toward zero) as `pyInt`.
-/

namespace SimOp

/-- Python 3 `round` with no digits: round half to even (banker's rounding). -/
def pyRound (q : ℚ) : ℤ :=
  let f : ℤ := ⌊q⌋
  let frac : ℚ := q - (f : ℚ)
  if frac < 1/2 then f
  else if 1/2 < frac then f + 1
  else if f % 2 = 0 then f else f + 1

/-- Python `int()` applied to a number: truncation toward zero. -/
def pyInt (q : ℚ) : ℤ :=
  if 0 ≤ q then ⌊q⌋ else -⌊-q⌋

/-- `np.clip(x, lo, hi)` for scalars: `min(max(x, lo), hi)`. -/
def npClip (x lo hi : ℚ) : ℚ := min hi (max lo x)

/-!
## Kinematics (`kinematics/kinematics_V3.py`)

`Kinematics.muscle_lengths_from_lengths` maps each actuator length to
`min(int(round(length - FIXED_HARDWARE_LENGTH)), MAX_MUSCLE_LENGTH)`.
Only these two parameters of the `Kinematics` object are read by it.
-/

structure KinParams where
  MAX_MUSCLE_LENGTH : ℤ
  FIXED_HARDWARE_LENGTH : ℚ

/-- `Kinematics.muscle_lengths_from_lengths` (kinematics_V3.py lines 181-186):
`[min(int(round(length - self.FIXED_HARDWARE_LENGTH)), self.MAX_MUSCLE_LENGTH)
  for length in actuator_lengths]`. -/
def muscle_lengths_from_lengths (p : KinParams) (actuator_lengths : List ℚ) : List ℤ :=
  actuator_lengths.map (fun length => min (pyRound (length - p.FIXED_HARDWARE_LENGTH)) p.MAX_MUSCLE_LENGTH)

/-- Parameters of the Falcon chair configuration
(`kinematics/cfg_SuspendedPlatform.py`): `MAX_MUSCLE_LENGTH = 1000`,
`FIXED_HARDWARE_LENGTH = 200`. -/
def falconParams : KinParams := ⟨1000, 200⟩

/-- `Kinematics.norm_to_real` (kinematics_V3.py lines 210-215): clip each
normalized component to `[-1, 1]`, then multiply by the per-DOF limit. -/
def norm_to_real (limits_1dof : List ℚ) (transform : List ℚ) : List ℚ :=
  List.zipWith (fun x l => npClip x (-1) 1 * l) transform limits_1dof

/-!
## Exponential decay washout filter (`washout/exponential.py`)
-/

structure ExponentialDecayFilter where
  decay_rate : ℚ
  current_value : ℚ
deriving DecidableEq

/-- `ExponentialDecayFilter.update` (washout/exponential.py lines 14-23):
`alpha = decay_rate * delta_time; current_value += (input - current_value) * alpha;
return current_value`. Returns the value together with the updated filter.
There is no guard on `delta_time` in the source. -/
def ExponentialDecayFilter.update (f : ExponentialDecayFilter)
    (input_value delta_time : ℚ) : ℚ × ExponentialDecayFilter :=
  let alpha := f.decay_rate * delta_time
  let v := f.current_value + (input_value - f.current_value) * alpha
  (v, { f with current_value := v })

/-!
## Distance to pressure (`output/d_to_p.py`)
-/

def MAX_PRESSURE : ℤ := 6000

structure DtoP where
  max_muscle_length : ℚ
  max_muscle_contraction : ℚ

/-- `D_to_P.muscle_length_to_pressure` (output/d_to_p.py lines 70-82), the
fallback used when no calibration table is loaded:
`percent = (max_muscle_length - length) / (max_muscle_length * (1 - max_muscle_contraction / 100)) * 100`,
`pressure = max(0, min(int(35 * percent**2 + 15 * percent + 0.03), MAX_PRESSURE))`. -/
def DtoP.muscle_length_to_pressure (d : DtoP) (muscle_lengths : List ℚ) : List ℤ :=
  muscle_lengths.map (fun length =>
    let percent := (d.max_muscle_length - length) /
      (d.max_muscle_length * (1 - d.max_muscle_contraction / 100)) * 100
    max 0 (min (pyInt (35 * percent^2 + 15 * percent + 3/100)) MAX_PRESSURE))

/-!
## Neutral-height search (`Kinematics.set_geometry`, kinematics_V3.py lines 36-96)

`set_geometry` mirrors half geometries, then sweeps candidate platform
heights `z` through `np.arange(clearance_offset, 1000, 1.0)` and stops
at the first `z` where `np.any(lengths <= MIN_ACTUATOR_LENGTH)`; the
neutral height is `mid_z = (z_min + z_max) / 2`, and a `ValueError` is
raised when the sweep finds nothing.

Length comparisons are embedded on squared distances: for the
non-negative actuator length `‖p - b‖` and a non-negative bound `L`,
`‖p - b‖ ≤ L ↔ ‖p - b‖² ≤ L²` (and likewise for `≥`), which keeps the
search exactly computable over `ℚ`; `MIN_ACTUATOR_LENGTH =
MUSCLE_MIN_LENGTH + FIXED_HARDWARE_LENGTH > 0` in every configuration.
-/

structure Pt3 where
  x : ℚ
  y : ℚ
  z : ℚ
deriving DecidableEq

/-- `mirror(coords)` in `set_geometry`:
`coords + [[x, -y, z] for x, y, z in reversed(coords)]`. -/
def mirror (coords : List Pt3) : List Pt3 :=
  coords ++ coords.reverse.map (fun p => ⟨p.x, -p.y, p.z⟩)

/-- The platform half is given as `(x, y)` pairs (z is supplied by the
sweep); mirroring negates `y` and reverses the order. -/
def mirrorXY (coords : List (ℚ × ℚ)) : List (ℚ × ℚ) :=
  coords ++ coords.reverse.map (fun p => (p.1, -p.2))

/-- `self.base_coords`: mirrored when only 3 points are supplied. -/
def prep_base (base_coords : List Pt3) : List Pt3 :=
  if base_coords.length = 3 then mirror base_coords else base_coords

/-- `self.platform_coords` before the sweep: mirrored when only 3 points
are supplied (their `z` is overwritten by each candidate height). -/
def prep_platform (platform_coords_xy : List (ℚ × ℚ)) : List (ℚ × ℚ) :=
  if platform_coords_xy.length = 3 then mirrorXY platform_coords_xy else platform_coords_xy

/-- Squared distance from platform point `(x, y)` lifted to height `z` to
its base point: the square of the actuator length at candidate height `z`. -/
def dist2 (p : ℚ × ℚ) (b : Pt3) (z : ℚ) : ℚ :=
  (p.1 - b.x) ^ 2 + (p.2 - b.y) ^ 2 + (z - b.z) ^ 2

/-- `np.any(lengths <= MIN_ACTUATOR_LENGTH)` at height `z`, in squared form. -/
def any_at_min (base : List Pt3) (plat : List (ℚ × ℚ)) (minAct z : ℚ) : Bool :=
  (List.zip plat base).any (fun pb => decide (dist2 pb.1 pb.2 z ≤ minAct ^ 2))

/-- The `np.arange` sweep of `set_geometry`: starting at grid index `k`,
with `fuel` candidates left, return the first height `zmin + k` at which
some actuator is at or below minimum length. -/
def sweep (base : List Pt3) (plat : List (ℚ × ℚ)) (minAct zmin : ℚ) :
    ℕ → ℕ → Option ℚ
  | 0, _ => none
  | fuel + 1, k =>
      if any_at_min base plat minAct (zmin + k) then some ((zmin + k : ℚ))
      else sweep base plat minAct zmin fuel (k + 1)

/-- `Kinematics.set_geometry` reduced to the neutral-height computation the
claim is about: mirror half geometries, sweep `np.arange(clearance, 1000, 1)`
(`⌈1000 - clearance⌉` candidates) for the first height where any actuator
reaches minimum length, and return `mid_z = (z_min + z_max) / 2`; `none`
models the raised `ValueError`. -/
def set_geometry_mid_z (base_coords : List Pt3) (platform_coords_xy : List (ℚ × ℚ))
    (minAct clearance : ℚ) : Option ℚ :=
  (sweep (prep_base base_coords) (prep_platform platform_coords_xy) minAct clearance
      (⌈(1000 - clearance : ℚ)⌉).toNat 0).map (fun zmax => (clearance + zmax) / 2)

/-- Modelled from the spec (refinement comparison only — this is the
feasibility notion of the claim, not code of the repository): a candidate
height `z` is feasible when all actuator lengths lie within
`[min_actuator_len, max_actuator_len]`, stated on squared lengths. -/
def feasible_at (base : List Pt3) (plat : List (ℚ × ℚ)) (minAct maxAct z : ℚ) : Bool :=
  (List.zip plat base).all (fun pb =>
    decide (minAct ^ 2 ≤ dist2 pb.1 pb.2 z) && decide (dist2 pb.1 pb.2 z ≤ maxAct ^ 2))

/-!
## Simulator connection state machine (`sims/xplane_state_machine.py`)

Each tick the active state's `handle` polls `heartbeat.query_status`
(yielding `hb_ok` and `app_running`), possibly reads telemetry, and
moves the machine at most one state. The heartbeat client itself lives
outside the embedded core; its polled result is an input here, exactly
as each `handle` method consumes it.
-/

inductive SimState
  | waiting_heartbeat
  | waiting_xplane
  | waiting_datarefs
  | receiving_datarefs
deriving DecidableEq

/-- One `SimStateMachine.handle` call (sims/xplane_state_machine.py lines
78-186): dispatches to the active state's `handle`, which reads the polled
heartbeat status and (in the two telemetry states) the freshest telemetry
datagram, transitions at most one hop, and returns either the decoded
transform or `NO_TRANSFORM` (modelled as `none`). -/
def sim_state_handle (s : SimState) (hb_ok app_running : Bool)
    (telemetry : Option (List ℚ)) : SimState × Option (List ℚ) :=
  match s with
  | .waiting_heartbeat =>
      (if hb_ok then .waiting_xplane else .waiting_heartbeat, none)
  | .waiting_xplane =>
      if !hb_ok then (.waiting_heartbeat, none)
      else if app_running then (.waiting_datarefs, none)
      else (.waiting_xplane, none)
  | .waiting_datarefs =>
      if !hb_ok then (.waiting_heartbeat, none)
      else if !app_running then (.waiting_xplane, none)
      else
        match telemetry with
        | some t => (.receiving_datarefs, some t)
        | none => (.waiting_datarefs, none)
  | .receiving_datarefs =>
      if !hb_ok || !app_running then (.waiting_heartbeat, none)
      else
        match telemetry with
        | none => (.waiting_datarefs, none)
        | some t => (.receiving_datarefs, some t)

/-!
## Platform activation state machine (`siminterface.py`, `SimInterfaceCore`)

The mutable fields of `SimInterfaceCore` touched by `update_state`,
`start_transition` and `handle_transition_step` become a `CoreState`
record; configuration and collaborator objects read by them become a
`CoreEnv`. The inverse-kinematics chain `self.k.muscle_lengths`
(trigonometric, invoked only on live telemetry) is carried as an opaque
field `kMuscleLengths` of the environment, and the cached
`k.PLATFORM_NEUTRAL_MUSCLE_LENGTHS` as `kNeutralLengths`; everything
else is embedded concretely.

Python exceptions are surfaced through `Except`: `update_state`'s
invalid-transition branch evaluates `new_self.state` where no name
`new_self` is bound, so Python raises `NameError` while building the
`log.warning` call's arguments — before anything is logged.
-/

inductive PyError
  | nameError
deriving DecidableEq

structure CoreEnv where
  cfg_DEACTIVATED_MUSCLE_LENGTHS : List ℚ
  gains : List ℚ
  master_gain : ℚ
  intensity_percent : ℚ
  limits_1dof : List ℚ
  kMuscleLengths : List ℚ → List ℚ
  kNeutralLengths : List ℚ

@[ext]
structure CoreState where
  state : String
  muscle_lengths : List ℚ
  transition_state : Option String
  transition_step_index : ℤ
  transition_steps : ℤ
  transition_start_lengths : List ℚ
  transition_end_lengths : List ℚ
  transition_delta_lengths : List ℚ
  block_sim_control : Bool

/-- Progress report emitted through `update_activate_transition`
(`activationLevelUpdated` signal): activation percent and the muscle
lengths passed along with it. -/
structure ProgressEvent where
  percent : ℤ
  lengths : List ℚ
deriving DecidableEq

/-- The `valid_transitions` dict of `SimInterfaceCore.update_state`
(siminterface.py lines 607-615); `dict.get(state, [])` yields `[]` for
unknown states. -/
def valid_transitions (s : String) : List String :=
  if s = "initialized" then ["deactivated", "deactivating"]
  else if s = "deactivating" then ["deactivated"]
  else if s = "deactivated" then ["activating"]
  else if s = "activating" then ["enabled"]
  else if s = "enabled" then ["running", "paused", "deactivating"]
  else if s = "running" then ["paused", "deactivating"]
  else if s = "paused" then ["running", "deactivating"]
  else []

/-- `max(abs(e - s) for s, e in zip(start, end))` in `start_transition`.
All generated values are non-negative, so folding `max` from `0` agrees
with Python's `max` on the six-element generator. -/
def maxAbsDiff (start_lengths end_lengths : List ℚ) : ℚ :=
  (List.zipWith (fun s e => |e - s|) start_lengths end_lengths).foldr max 0

/-- `SimInterfaceCore.start_transition` (siminterface.py lines 420-437):
start lengths are `cfg.DEACTIVATED_MUSCLE_LENGTHS` when activating and the
current `muscle_lengths` otherwise; `transition_steps =
max(1, int(max_dist / (50 * 0.05)))`; `delta_i = (e_i - s_i) / steps`. -/
def start_transition (env : CoreEnv) (mode : String) (end_lengths : List ℚ)
    (c : CoreState) : CoreState :=
  let start :=
    if mode = "activating" then env.cfg_DEACTIVATED_MUSCLE_LENGTHS else c.muscle_lengths
  let max_dist := maxAbsDiff start end_lengths
  let steps : ℤ := max 1 (pyInt (max_dist / (50 * (5 / 100))))
  let delta := List.zipWith (fun s e => (e - s) / (steps : ℚ)) start end_lengths
  { c with
      transition_state := some mode
      transition_step_index := 0
      transition_start_lengths := start
      transition_end_lengths := end_lengths
      transition_steps := steps
      transition_delta_lengths := delta
      block_sim_control := true }

/-- `SimInterfaceCore.update_state` (siminterface.py lines 589-655).
`telemetry` stands for `self.sim.read()` in the `activating` branch
(`none` when the sim returns no transform, i.e. `transform[0] is None`).
A requested state equal to the current one returns immediately; a state
not in `valid_transitions` evaluates the unbound name `new_self`,
raising `NameError`; otherwise the state is set, the UI is notified and
the state-specific handling runs (`activating`/`deactivating` start a
transition; the remaining states only log or call into the sim). -/
def update_state (env : CoreEnv) (telemetry : Option (List ℚ))
    (new_state : String) (c : CoreState) : Except PyError CoreState :=
  if new_state = c.state then .ok c
  else if new_state ∉ valid_transitions c.state then .error .nameError
  else
    let c1 := { c with state := new_state }
    if new_state = "activating" then
      match telemetry with
      | some transform =>
        let scaled := List.zipWith
          (fun t g => t * g * env.master_gain * (env.intensity_percent / 100))
          transform env.gains
        let end_lengths := env.kMuscleLengths (norm_to_real env.limits_1dof scaled)
        .ok (start_transition env "activating" end_lengths c1)
      | none =>
        .ok (start_transition env "activating" env.kNeutralLengths c1)
    else if new_state = "deactivating" then
      .ok (start_transition env "deactivating" env.cfg_DEACTIVATED_MUSCLE_LENGTHS c1)
    else .ok c1

/-- `SimInterfaceCore.handle_transition_step` (siminterface.py lines
376-416). Returns the updated core, the Python return value (`True`
while a transition is being serviced) and the progress events emitted
during the call. On completion it sets the final lengths, emits the
final percent, clears `transition_state`, resets the sim-control block
and auto-advances the platform state through `update_state`. -/
def handle_transition_step (env : CoreEnv) (c : CoreState) :
    Except PyError (CoreState × Bool × List ProgressEvent) :=
  match c.transition_state with
  | none => .ok (c, false, [])
  | some mode =>
    if c.transition_steps ≤ c.transition_step_index then
      let c1 := { c with muscle_lengths := c.transition_end_lengths }
      let final_percent : ℤ := if mode = "activating" then 100 else 0
      let ev : ProgressEvent := ⟨final_percent, c1.muscle_lengths⟩
      let c2 := { c1 with transition_state := none, block_sim_control := false }
      if mode = "activating" then
        match update_state env none "enabled" c2 with
        | .ok c3 => .ok (c3, false, [ev])
        | .error e => .error e
      else if mode = "deactivating" then
        match update_state env none "deactivated" c2 with
        | .ok c3 => .ok (c3, false, [ev])
        | .error e => .error e
      else .ok (c2, false, [ev])
    else
      let lengths := List.zipWith (fun s d => s + (c.transition_step_index : ℚ) * d)
        c.transition_start_lengths c.transition_delta_lengths
      let progress : ℚ := (c.transition_step_index : ℚ) / (c.transition_steps : ℚ)
      let percent : ℤ :=
        if mode = "activating" then pyInt (progress * 100)
        else pyInt (100 - progress * 100)
      let ev : ProgressEvent := ⟨percent, lengths⟩
      .ok ({ c with
              muscle_lengths := lengths
              transition_step_index := c.transition_step_index + 1 },
           true, [ev])

/-- Iterated control-loop servicing of an active transition: `n`
successive `handle_transition_step` calls, keeping only the core state. -/
def stepN (env : CoreEnv) : ℕ → CoreState → Except PyError CoreState
  | 0, c => .ok c
  | n + 1, c =>
    match handle_transition_step env c with
    | .ok r => stepN env n r.1
    | .error e => .error e

/-!
## Helper lemmas about the transition machinery
-/

theorem foldr_max_nonneg (l : List ℚ) : 0 ≤ l.foldr max 0 := by
  induction l with
  | nil => simp
  | cons x xs ih => exact le_trans ih (le_max_right x _)

theorem maxAbsDiff_nonneg (s e : List ℚ) : 0 ≤ maxAbsDiff s e :=
  foldr_max_nonneg _

theorem foldr_max_replicate_zero (n : ℕ) : (List.replicate n (0 : ℚ)).foldr max 0 = 0 := by
  induction n with
  | zero => simp
  | succ m ih => simp [List.replicate_succ, ih]

theorem maxAbsDiff_self (l : List ℚ) : maxAbsDiff l l = 0 := by
  unfold maxAbsDiff
  have h : List.zipWith (fun s e => |e - s|) l l = List.replicate l.length 0 := by
    induction l with
    | nil => simp
    | cons x xs ih => simp [ih, List.replicate_succ]
  rw [h, foldr_max_replicate_zero]

theorem pyInt_of_nonneg (q : ℚ) (h : 0 ≤ q) : pyInt q = ⌊q⌋ := by
  simp [pyInt, h]

theorem one_le_transition_steps (env : CoreEnv) (mode : String) (end_lengths : List ℚ)
    (c : CoreState) : 1 ≤ (start_transition env mode end_lengths c).transition_steps :=
  le_max_left _ _

theorem start_transition_start (env : CoreEnv) (mode : String) (endL : List ℚ) (c : CoreState) :
    (start_transition env mode endL c).transition_start_lengths =
      if mode = "activating" then env.cfg_DEACTIVATED_MUSCLE_LENGTHS else c.muscle_lengths := rfl

theorem start_transition_end (env : CoreEnv) (mode : String) (endL : List ℚ) (c : CoreState) :
    (start_transition env mode endL c).transition_end_lengths = endL := rfl

theorem start_transition_steps_eq (env : CoreEnv) (mode : String) (endL : List ℚ) (c : CoreState) :
    (start_transition env mode endL c).transition_steps =
      max 1 (pyInt (maxAbsDiff (start_transition env mode endL c).transition_start_lengths endL /
        (50 * (5 / 100)))) := rfl

theorem start_transition_delta (env : CoreEnv) (mode : String) (endL : List ℚ) (c : CoreState) :
    (start_transition env mode endL c).transition_delta_lengths =
      List.zipWith (fun s e => (e - s) / ((start_transition env mode endL c).transition_steps : ℚ))
        (start_transition env mode endL c).transition_start_lengths endL := rfl

theorem start_transition_tstate (env : CoreEnv) (mode : String) (endL : List ℚ) (c : CoreState) :
    (start_transition env mode endL c).transition_state = some mode := rfl

theorem start_transition_index (env : CoreEnv) (mode : String) (endL : List ℚ) (c : CoreState) :
    (start_transition env mode endL c).transition_step_index = 0 := rfl

theorem start_transition_state (env : CoreEnv) (mode : String) (endL : List ℚ) (c : CoreState) :
    (start_transition env mode endL c).state = c.state := rfl

/-!
## Claims about the leaf components
-/

/-- C1 counterexample: `muscle_lengths_from_lengths` has no lower clamp.
With the Falcon chair parameters (`FIXED_HARDWARE_LENGTH = 200`,
`MAX_MUSCLE_LENGTH = 1000`) the actuator-length vector `[0,0,0,0,0,0]`
yields muscle lengths `[-200,...,-200]`, which are negative — refuting
"never negative". -/
theorem muscle_lengths_negative_cx :
    muscle_lengths_from_lengths falconParams (List.replicate 6 0) = List.replicate 6 (-200) ∧
    ((-200 : ℤ) < 0) := by
  constructor
  · norm_num [muscle_lengths_from_lengths, falconParams, pyRound]
  · decide

/-- C1 (amended): for every vector of actuator lengths, every muscle length
returned by `muscle_lengths_from_lengths` is at most `MAX_MUSCLE_LENGTH`;
the code applies no lower clamp, so no non-negativity guarantee holds. -/
theorem muscle_lengths_le_max (p : KinParams) (actuator_lengths : List ℚ) :
    ∀ m ∈ muscle_lengths_from_lengths p actuator_lengths, m ≤ p.MAX_MUSCLE_LENGTH := by
  intro m hm
  simp only [muscle_lengths_from_lengths, List.mem_map] at hm
  obtain ⟨l, _, rfl⟩ := hm
  exact min_le_right _ _

theorem muscle_lengths_le_max_witness :
    ((-200 : ℤ) ∈ muscle_lengths_from_lengths falconParams (List.replicate 6 0)) ∧
    ((-200 : ℤ) ≤ falconParams.MAX_MUSCLE_LENGTH) :=
  ⟨by norm_num [muscle_lengths_from_lengths, falconParams, pyRound],
   muscle_lengths_le_max falconParams (List.replicate 6 0) (-200)
     (by norm_num [muscle_lengths_from_lengths, falconParams, pyRound])⟩

/-- C7 counterexample: `ExponentialDecayFilter.update` has no `dt ≤ 0` guard.
With `decay_rate = 1`, stored value `0` and input `1`, calling `update` with
`dt = -1` (which satisfies `dt ≤ 0`) returns `-1` and stores `-1`: it is not
a no-op and does not return the previous output `0`. -/
theorem exponential_negative_dt_cx :
    ((-1 : ℚ) ≤ 0) ∧
    ((⟨1, 0⟩ : ExponentialDecayFilter).update 1 (-1)).1 = -1 ∧
    ((⟨1, 0⟩ : ExponentialDecayFilter).update 1 (-1)).2.current_value = -1 ∧
    ((-1 : ℚ) ≠ (⟨1, 0⟩ : ExponentialDecayFilter).current_value) := by
  refine ⟨by norm_num, ?_, ?_, by norm_num⟩ <;>
    norm_num [ExponentialDecayFilter.update]

/-- C7 (amended): calling `update` with `dt = 0` is a no-op: it returns the
previous output and leaves the filter's stored value unchanged. (Negative
`dt` is not guarded against and does modify the state.) -/
theorem exponential_update_zero_dt (f : ExponentialDecayFilter) (input_value : ℚ) :
    f.update input_value 0 = (f.current_value, f) := by
  simp [ExponentialDecayFilter.update]

/-- C9: with no calibration table loaded, `muscle_length_to_pressure` applies
the quadratic `35·x² + 15·x + 0.03` to the percent-of-contraction of each of
the muscle lengths and clamps to `[0, MAX_PRESSURE]`; hence (whenever the
percent denominator is nonzero, as Python requires for the division to be
defined) every returned pressure lies within `[0, MAX_PRESSURE]`. -/
theorem muscle_length_to_pressure_bounds (d : DtoP) (muscle_lengths : List ℚ)
    (hden : d.max_muscle_length * (1 - d.max_muscle_contraction / 100) ≠ 0) :
    ∀ p ∈ d.muscle_length_to_pressure muscle_lengths, 0 ≤ p ∧ p ≤ MAX_PRESSURE := by
  intro p hp
  simp only [DtoP.muscle_length_to_pressure, List.mem_map] at hp
  obtain ⟨l, _, rfl⟩ := hp
  exact ⟨le_max_left _ _, max_le (by norm_num [MAX_PRESSURE]) (min_le_right _ _)⟩

theorem muscle_length_to_pressure_bounds_witness :
    ((1000 : ℚ) * (1 - 251 / 100) ≠ 0) ∧
    ((0 : ℤ) ∈ DtoP.muscle_length_to_pressure ⟨1000, 251⟩ [1000]) ∧
    (0 ≤ (0 : ℤ) ∧ (0 : ℤ) ≤ MAX_PRESSURE) :=
  ⟨by norm_num,
   by norm_num [DtoP.muscle_length_to_pressure, pyInt],
   muscle_length_to_pressure_bounds ⟨1000, 251⟩ [1000] (by norm_num) 0
     (by norm_num [DtoP.muscle_length_to_pressure, pyInt])⟩

/-- C6: from every simulator-connection state other than `waiting_heartbeat`,
a tick whose polled heartbeat status is not ok (`hb_ok = false`) moves the
machine to `waiting_heartbeat` within that single `handle` call, whatever the
`app_running` flag and pending telemetry are. -/
theorem heartbeat_loss_regresses (s : SimState) (hs : s ≠ SimState.waiting_heartbeat)
    (app_running : Bool) (telemetry : Option (List ℚ)) :
    (sim_state_handle s false app_running telemetry).1 = SimState.waiting_heartbeat := by
  cases s with
  | waiting_heartbeat => exact absurd rfl hs
  | waiting_xplane => rfl
  | waiting_datarefs => rfl
  | receiving_datarefs => rfl

theorem heartbeat_loss_regresses_witness :
    (SimState.receiving_datarefs ≠ SimState.waiting_heartbeat) ∧
    (sim_state_handle SimState.receiving_datarefs false true (some [0, 0, 0, 0, 0, 0])).1 =
      SimState.waiting_heartbeat :=
  ⟨by decide,
   heartbeat_loss_regresses SimState.receiving_datarefs (by decide) true (some [0, 0, 0, 0, 0, 0])⟩

/-- The muscle lengths pushed on a non-final transition tick:
`[s + step_index * d for s, d in zip(start_lengths, delta_lengths)]`. -/
def midLengths (c : CoreState) : List ℚ :=
  List.zipWith (fun s d => s + (c.transition_step_index : ℚ) * d)
    c.transition_start_lengths c.transition_delta_lengths

/-- State after a non-final transition tick: interpolated lengths, step
index advanced by one. -/
def midSucc (c : CoreState) : CoreState :=
  { c with
      muscle_lengths := midLengths c
      transition_step_index := c.transition_step_index + 1 }

/-- Progress event of a non-final transition tick:
`int(progress*100)` when activating, `int(100 - progress*100)` when
deactivating, with `progress = step_index / steps`. -/
def midEvent (mode : String) (c : CoreState) : ProgressEvent :=
  ⟨if mode = "activating"
      then pyInt ((c.transition_step_index : ℚ) / (c.transition_steps : ℚ) * 100)
      else pyInt (100 - (c.transition_step_index : ℚ) / (c.transition_steps : ℚ) * 100),
    midLengths c⟩

/-- State after the completion tick: final lengths set, transition
cleared, platform state auto-advanced. -/
def completeSucc (mode : String) (c : CoreState) : CoreState :=
  { c with
      state := if mode = "activating" then "enabled" else "deactivated"
      muscle_lengths := c.transition_end_lengths
      transition_state := none
      block_sim_control := false }

theorem midSucc_index (c : CoreState) :
    (midSucc c).transition_step_index = c.transition_step_index + 1 := rfl

theorem midSucc_tstate (c : CoreState) :
    (midSucc c).transition_state = c.transition_state := rfl

theorem midSucc_state (c : CoreState) : (midSucc c).state = c.state := rfl

theorem midSucc_steps (c : CoreState) :
    (midSucc c).transition_steps = c.transition_steps := rfl

theorem midSucc_end (c : CoreState) :
    (midSucc c).transition_end_lengths = c.transition_end_lengths := rfl

/-- During an active transition with steps remaining, one
`handle_transition_step` call interpolates the muscle lengths, emits one
progress event, advances the step index by one and returns `True`. -/
theorem handle_step_mid (env : CoreEnv) (mode : String) (c : CoreState)
    (h : c.transition_state = some mode)
    (hlt : c.transition_step_index < c.transition_steps) :
    handle_transition_step env c =
      Except.ok (midSucc c, true, [midEvent mode c]) := by
  simp only [handle_transition_step, h, if_neg (not_le.mpr hlt), midSucc, midEvent, midLengths]

/-- At the end of an active transition (step index has reached the step
count), `handle_transition_step` sets the final lengths, emits the final
percent, clears the transition, auto-advances the platform state
(`activating → enabled`, `deactivating → deactivated`) and returns
`False`. -/
theorem handle_step_complete (env : CoreEnv) (mode : String) (c : CoreState)
    (hmode : mode = "activating" ∨ mode = "deactivating")
    (h : c.transition_state = some mode) (hstate : c.state = mode)
    (hge : c.transition_steps ≤ c.transition_step_index) :
    handle_transition_step env c =
      Except.ok (completeSucc mode c, false,
        [⟨if mode = "activating" then 100 else 0, c.transition_end_lengths⟩]) := by
  rcases hmode with h1 | h1 <;> subst h1
  · have hne : ¬ ("enabled" = c.state) := by rw [hstate]; decide
    have hv : ¬ ("enabled" ∉ valid_transitions c.state) := by rw [hstate]; decide
    simp [handle_transition_step, h, if_pos hge, update_state, if_neg hne, if_neg hv,
      completeSucc]
  · have hne : ¬ ("deactivated" = c.state) := by rw [hstate]; decide
    have hv : ¬ ("deactivated" ∉ valid_transitions c.state) := by rw [hstate]; decide
    simp [handle_transition_step, h, if_pos hge, update_state, if_neg hne, if_neg hv,
      completeSucc]

/-!
## Concrete instances used by counterexamples and witnesses
-/

/-- A concrete environment mirroring the Falcon chair configuration:
deactivated muscle lengths `[1000]*6` (cfg.DEACTIVATED_MUSCLE_LENGTHS),
unit gains, master gain 1, intensity 100%. The opaque kinematics chain
answers a fixed vector; the counterexamples below never invoke it. -/
def demoEnv : CoreEnv where
  cfg_DEACTIVATED_MUSCLE_LENGTHS := List.replicate 6 1000
  gains := List.replicate 6 1
  master_gain := 1
  intensity_percent := 100
  limits_1dof := [100, 122, 140, 1/4, 1/3, 1/5]
  kMuscleLengths := fun _ => List.replicate 6 800
  kNeutralLengths := List.replicate 6 800

/-- A core resting in the `deactivated` state with all muscles at the
deactivated length. -/
def deactivatedCore : CoreState where
  state := "deactivated"
  muscle_lengths := List.replicate 6 1000
  transition_state := none
  transition_step_index := 0
  transition_steps := 0
  transition_start_lengths := []
  transition_end_lengths := []
  transition_delta_lengths := []
  block_sim_control := false

/-- Like `deactivatedCore` but with the physical muscle lengths drifted to
`[999]*6`, different from the configured deactivated lengths. -/
def driftedCore : CoreState :=
  { deactivatedCore with muscle_lengths := List.replicate 6 999 }

/-!
## Platform activation state machine claims
-/

/-- C2: requesting `running` while `deactivated` is not a legal transition;
the code's warning branch evaluates the unbound name `new_self`, so
`update_state` raises `NameError` instead of logging a warning and
returning — the embedded call yields an error, refuting "never raises". -/
theorem invalid_transition_raises :
    update_state demoEnv none "running" deactivatedCore = Except.error PyError.nameError := rfl

/-- C3 counterexample: `start_transition` computes
`steps = max(1, int(max_dist / 2.5))` — truncation, not rounding. From
start lengths `[1000]*6` (deactivating uses the current lengths) to end
lengths `[1004, 1000, ...]`, `max_travel = 4` and `4 / 2.5 = 1.6`: the
code sets 1 step, while the claimed `max(1, round(1.6)) = 2`. -/
theorem transition_steps_truncates_cx :
    (start_transition demoEnv "deactivating" [1004, 1000, 1000, 1000, 1000, 1000]
        deactivatedCore).transition_steps = 1 ∧
    max 1 (pyRound ((4 : ℚ) / (50 * (5 / 100)))) = 2 ∧
    (1 : ℤ) ≠ 2 := by
  refine ⟨?_, ?_, by decide⟩
  · norm_num [start_transition, deactivatedCore, demoEnv, maxAbsDiff, pyInt,
      List.replicate_succ]
  · norm_num [pyRound]

/-- C3 (amended): for every pair of start and end vectors,
`start_transition` sets `max_travel = max_i |end_i - start_i|`,
`steps = max(1, trunc(max_travel / (rate_mm_per_sec * tick_interval)))`
(truncation toward zero — equivalently `Int.floor`, the travel being
non-negative — rather than rounding to nearest) with rate 50 mm/s and
tick 0.05 s, and `delta_i = (end_i - start_i) / steps`; consequently
`steps ≥ 1` and `delta_i · steps = end_i - start_i`. -/
theorem start_transition_protocol (env : CoreEnv) (mode : String)
    (end_lengths : List ℚ) (c : CoreState) :
    ((start_transition env mode end_lengths c).transition_start_lengths =
      if mode = "activating" then env.cfg_DEACTIVATED_MUSCLE_LENGTHS else c.muscle_lengths) ∧
    (start_transition env mode end_lengths c).transition_steps =
      max 1 ⌊maxAbsDiff (start_transition env mode end_lengths c).transition_start_lengths
              end_lengths / (50 * (5 / 100))⌋ ∧
    1 ≤ (start_transition env mode end_lengths c).transition_steps ∧
    (start_transition env mode end_lengths c).transition_delta_lengths =
      List.zipWith
        (fun s e => (e - s) / ((start_transition env mode end_lengths c).transition_steps : ℚ))
        (start_transition env mode end_lengths c).transition_start_lengths end_lengths ∧
    (start_transition env mode end_lengths c).transition_delta_lengths.map
        (fun d => d * ((start_transition env mode end_lengths c).transition_steps : ℚ)) =
      List.zipWith (fun s e => e - s)
        (start_transition env mode end_lengths c).transition_start_lengths end_lengths := by
  have hsteps_ne : ((start_transition env mode end_lengths c).transition_steps : ℚ) ≠ 0 := by
    have h1 := one_le_transition_steps env mode end_lengths c
    exact_mod_cast (by omega : (start_transition env mode end_lengths c).transition_steps ≠ 0)
  refine ⟨rfl, ?_, one_le_transition_steps env mode end_lengths c, rfl, ?_⟩
  · rw [start_transition_steps_eq,
      pyInt_of_nonneg _ (div_nonneg (maxAbsDiff_nonneg _ _) (by norm_num))]
  · rw [start_transition_delta, List.map_zipWith]
    congr 1
    funext s e
    exact div_mul_cancel₀ _ hsteps_ne

/-- C4 counterexample: entering `activating` starts the interpolation from
the configured `cfg.DEACTIVATED_MUSCLE_LENGTHS`, not from the platform's
current physical muscle lengths. With the current lengths drifted to
`[999]*6`, the started transition's start vector is `[1000]*6`. -/
theorem activating_start_vector_cx :
    (update_state demoEnv none "activating" driftedCore).toOption.map
        (fun c1 => c1.transition_start_lengths) = some (List.replicate 6 1000) ∧
    driftedCore.muscle_lengths = List.replicate 6 999 ∧
    List.replicate 6 (1000 : ℚ) ≠ List.replicate 6 (999 : ℚ) := by
  refine ⟨rfl, rfl, ?_⟩
  intro h
  have h1000 : (1000 : ℚ) = 999 := by
    have := congrArg (fun l => l.headI) h
    simpa using this
  norm_num at h1000

/-- C4 (amended): whenever the platform enters the activating state (legal
only from `deactivated`), the started interpolation's start vector is the
configured deactivated muscle lengths (`cfg.DEACTIVATED_MUSCLE_LENGTHS`),
not necessarily the current physical lengths; its end vector is the muscle
lengths computed for the gain/intensity-scaled live transform when
telemetry is available, else the cached neutral muscle lengths. -/
theorem activating_transition_vectors (env : CoreEnv) (telemetry : Option (List ℚ))
    (c : CoreState) (hstate : c.state = "deactivated") :
    ∃ c1, update_state env telemetry "activating" c = Except.ok c1 ∧
      c1.transition_state = some "activating" ∧
      c1.transition_start_lengths = env.cfg_DEACTIVATED_MUSCLE_LENGTHS ∧
      c1.transition_end_lengths =
        (match telemetry with
         | some transform =>
            env.kMuscleLengths (norm_to_real env.limits_1dof
              (List.zipWith (fun t g => t * g * env.master_gain * (env.intensity_percent / 100))
                transform env.gains))
         | none => env.kNeutralLengths) := by
  have h1 : ¬ ("activating" = c.state) := by rw [hstate]; decide
  have h2 : ¬ ("activating" ∉ valid_transitions c.state) := by rw [hstate]; decide
  cases telemetry with
  | none =>
    refine ⟨start_transition env "activating" env.kNeutralLengths { c with state := "activating" },
      ?_, start_transition_tstate .., by rw [start_transition_start]; rfl,
      start_transition_end ..⟩
    simp only [update_state, if_neg h1, if_neg h2, if_true]
  | some transform =>
    refine ⟨start_transition env "activating"
        (env.kMuscleLengths (norm_to_real env.limits_1dof
          (List.zipWith (fun t g => t * g * env.master_gain * (env.intensity_percent / 100))
            transform env.gains)))
        { c with state := "activating" },
      ?_, start_transition_tstate .., by rw [start_transition_start]; rfl,
      start_transition_end ..⟩
    simp only [update_state, if_neg h1, if_neg h2, if_true]

theorem activating_transition_vectors_witness :
    deactivatedCore.state = "deactivated" ∧
    (∃ c1, update_state demoEnv none "activating" deactivatedCore = Except.ok c1 ∧
      c1.transition_state = some "activating" ∧
      c1.transition_start_lengths = demoEnv.cfg_DEACTIVATED_MUSCLE_LENGTHS ∧
      c1.transition_end_lengths =
        (match (none : Option (List ℚ)) with
         | some transform =>
            demoEnv.kMuscleLengths (norm_to_real demoEnv.limits_1dof
              (List.zipWith
                (fun t g => t * g * demoEnv.master_gain * (demoEnv.intensity_percent / 100))
                transform demoEnv.gains))
         | none => demoEnv.kNeutralLengths)) :=
  ⟨rfl, activating_transition_vectors demoEnv none deactivatedCore rfl⟩

/-- A core sitting in the `activating` state, as `update_state` leaves it
just before calling `start_transition`. -/
def activatingCore : CoreState := { deactivatedCore with state := "activating" }

/-- A zero-length activation transition: start and end vectors both equal
the configured deactivated lengths `[1000]*6`. -/
def zeroLenStart : CoreState :=
  start_transition demoEnv "activating" (List.replicate 6 1000) activatingCore

theorem zeroLenStart_steps : zeroLenStart.transition_steps = 1 := by
  show (start_transition demoEnv "activating" (List.replicate 6 1000)
    activatingCore).transition_steps = 1
  rw [start_transition_steps_eq, start_transition_start]
  norm_num [demoEnv, maxAbsDiff_self, pyInt]

/-- C5 counterexample: a transition whose start and end vectors are both
`[1000]*6` does not complete on its first control-loop tick: that tick
still returns `True` (the transition stays active for a second tick) and
the single event it emits reports 0%, not 100%. -/
theorem zero_length_transition_cx :
    zeroLenStart.transition_start_lengths = zeroLenStart.transition_end_lengths ∧
    handle_transition_step demoEnv zeroLenStart =
      Except.ok (midSucc zeroLenStart, true, [midEvent "activating" zeroLenStart]) ∧
    (midEvent "activating" zeroLenStart).percent = 0 ∧
    (0 : ℤ) ≠ 100 := by
  have hidx : zeroLenStart.transition_step_index = 0 := rfl
  refine ⟨rfl,
    handle_step_mid demoEnv "activating" zeroLenStart rfl
      (by rw [hidx, zeroLenStart_steps]; decide),
    ?_, by decide⟩
  simp only [midEvent, hidx, zeroLenStart_steps, if_true]
  norm_num [pyInt]

/-- C5 (amended): a transition whose start and end muscle-length vectors
are identical gets `steps = 1` (so no division by zero) and completes in
two control-loop ticks, emitting one progress event per tick: the first
tick returns `True` with a 0% event (activating; 100% for deactivating),
the second tick sets the final lengths, emits the final 100% (activating;
0% deactivating) event, clears the transition state and returns `False`. -/
theorem zero_length_transition (env : CoreEnv) (mode : String) (end_lengths : List ℚ)
    (c : CoreState) (hmode : mode = "activating" ∨ mode = "deactivating")
    (hstate : c.state = mode)
    (hsame : (if mode = "activating" then env.cfg_DEACTIVATED_MUSCLE_LENGTHS
              else c.muscle_lengths) = end_lengths) :
    (start_transition env mode end_lengths c).transition_steps = 1 ∧
    ∃ c1 ev1 c2 ev2,
      handle_transition_step env (start_transition env mode end_lengths c) =
        Except.ok (c1, true, [ev1]) ∧
      ev1.percent = (if mode = "activating" then 0 else 100) ∧
      handle_transition_step env c1 = Except.ok (c2, false, [ev2]) ∧
      ev2.percent = (if mode = "activating" then 100 else 0) ∧
      c2.transition_state = none ∧
      c2.muscle_lengths = end_lengths ∧
      c2.state = (if mode = "activating" then "enabled" else "deactivated") := by
  have hsteps : (start_transition env mode end_lengths c).transition_steps = 1 := by
    rw [start_transition_steps_eq, start_transition_start, hsame, maxAbsDiff_self]
    norm_num [pyInt]
  have hidx : (start_transition env mode end_lengths c).transition_step_index = 0 :=
    start_transition_index ..
  have htick1 := handle_step_mid env mode (start_transition env mode end_lengths c)
    (start_transition_tstate ..) (by rw [hidx, hsteps]; decide)
  have htick2 := handle_step_complete env mode
    (midSucc (start_transition env mode end_lengths c)) hmode
    (by rw [midSucc_tstate, start_transition_tstate])
    (by rw [midSucc_state, start_transition_state, hstate])
    (by rw [midSucc_steps, midSucc_index, hsteps, hidx]; decide)
  refine ⟨hsteps, midSucc (start_transition env mode end_lengths c),
    midEvent mode (start_transition env mode end_lengths c),
    completeSucc mode (midSucc (start_transition env mode end_lengths c)),
    ⟨if mode = "activating" then 100 else 0,
      (midSucc (start_transition env mode end_lengths c)).transition_end_lengths⟩,
    htick1, ?_, htick2, rfl, rfl, ?_, rfl⟩
  · rw [show (midEvent mode (start_transition env mode end_lengths c)).percent =
      if mode = "activating"
        then pyInt (((start_transition env mode end_lengths c).transition_step_index : ℚ) /
          ((start_transition env mode end_lengths c).transition_steps : ℚ) * 100)
        else pyInt (100 - ((start_transition env mode end_lengths c).transition_step_index : ℚ) /
          ((start_transition env mode end_lengths c).transition_steps : ℚ) * 100) from rfl,
      hidx, hsteps]
    rcases hmode with h1 | h1 <;> subst h1 <;> norm_num [pyInt]
  · rw [show (completeSucc mode (midSucc (start_transition env mode end_lengths c))).muscle_lengths =
      (midSucc (start_transition env mode end_lengths c)).transition_end_lengths from rfl,
      midSucc_end, start_transition_end]

theorem zero_length_transition_witness :
    (("activating" : String) = "activating" ∨ ("activating" : String) = "deactivating") ∧
    activatingCore.state = "activating" ∧
    ((if ("activating" : String) = "activating" then demoEnv.cfg_DEACTIVATED_MUSCLE_LENGTHS
      else activatingCore.muscle_lengths) = List.replicate 6 1000) ∧
    ((start_transition demoEnv "activating" (List.replicate 6 1000)
        activatingCore).transition_steps = 1 ∧
     ∃ c1 ev1 c2 ev2,
      handle_transition_step demoEnv
          (start_transition demoEnv "activating" (List.replicate 6 1000) activatingCore) =
        Except.ok (c1, true, [ev1]) ∧
      ev1.percent = (if ("activating" : String) = "activating" then 0 else 100) ∧
      handle_transition_step demoEnv c1 = Except.ok (c2, false, [ev2]) ∧
      ev2.percent = (if ("activating" : String) = "activating" then 100 else 0) ∧
      c2.transition_state = none ∧
      c2.muscle_lengths = List.replicate 6 1000 ∧
      c2.state = (if ("activating" : String) = "activating" then "enabled" else "deactivated")) :=
  ⟨Or.inl rfl, rfl, rfl,
   zero_length_transition demoEnv "activating" (List.replicate 6 1000) activatingCore
     (Or.inl rfl) rfl rfl⟩

/-!
## Termination of started transitions (C10)
-/

/-- Invariant of the transition loop: while steps remain, `n` successive
`handle_transition_step` calls succeed, advance the step index by `n`,
and leave the platform state and all frozen transition fields unchanged. -/
theorem stepN_invariant (env : CoreEnv) (mode : String) :
    ∀ (n : ℕ) (c : CoreState), c.transition_state = some mode →
      c.transition_step_index + n ≤ c.transition_steps →
      ∃ c', stepN env n c = Except.ok c' ∧
        c'.transition_step_index = c.transition_step_index + n ∧
        c'.transition_state = some mode ∧
        c'.state = c.state ∧
        c'.transition_steps = c.transition_steps ∧
        c'.transition_end_lengths = c.transition_end_lengths := by
  intro n
  induction n with
  | zero =>
    intro c h hle
    exact ⟨c, rfl, by push_cast; ring, h, rfl, rfl, rfl⟩
  | succ m ih =>
    intro c h hle
    have hlt : c.transition_step_index < c.transition_steps := by
      push_cast at hle
      omega
    obtain ⟨c', h1, h2, h3, h4, h5, h6⟩ := ih (midSucc c)
      (by rw [midSucc_tstate, h])
      (by rw [midSucc_index, midSucc_steps]; push_cast at hle ⊢; omega)
    refine ⟨c', ?_, ?_, h3, by rw [h4, midSucc_state], by rw [h5, midSucc_steps],
      by rw [h6, midSucc_end]⟩
    · rw [show stepN env (m + 1) c =
          (match handle_transition_step env c with
           | Except.ok r => stepN env m r.1
           | Except.error e => Except.error e) from rfl,
        handle_step_mid env mode c h hlt]
      exact h1
    · rw [h2, midSucc_index]
      push_cast
      ring

/-- C10: every started transition terminates. After
`start_transition` sets `steps = s` (`s ≥ 1`), each of the next `s`
control-loop ticks' `handle_transition_step` calls advances
`transition_step_index` by exactly one and returns `True`; the following
tick sets the final muscle lengths, emits the final progress percent
(100 for activating, 0 for deactivating) with those lengths, clears
`transition_state` to `None`, and returns `False`. -/
theorem started_transition_terminates (env : CoreEnv) (mode : String)
    (end_lengths : List ℚ) (c : CoreState)
    (hmode : mode = "activating" ∨ mode = "deactivating")
    (hstate : c.state = mode) :
    1 ≤ (start_transition env mode end_lengths c).transition_steps ∧
    (∀ k : ℕ, (k : ℤ) < (start_transition env mode end_lengths c).transition_steps →
      ∃ ck ev, stepN env k (start_transition env mode end_lengths c) = Except.ok ck ∧
        ck.transition_step_index = (k : ℤ) ∧
        handle_transition_step env ck = Except.ok (midSucc ck, true, [ev]) ∧
        (midSucc ck).transition_step_index = (k : ℤ) + 1) ∧
    (∃ cs cfin ev,
      stepN env (start_transition env mode end_lengths c).transition_steps.toNat
        (start_transition env mode end_lengths c) = Except.ok cs ∧
      cs.transition_step_index = (start_transition env mode end_lengths c).transition_steps ∧
      handle_transition_step env cs = Except.ok (cfin, false, [ev]) ∧
      cfin.muscle_lengths = end_lengths ∧
      cfin.transition_state = none ∧
      ev.percent = (if mode = "activating" then 100 else 0) ∧
      ev.lengths = end_lengths) := by
  have h1 := one_le_transition_steps env mode end_lengths c
  have hidx : (start_transition env mode end_lengths c).transition_step_index = 0 :=
    start_transition_index ..
  refine ⟨h1, ?_, ?_⟩
  · intro k hk
    obtain ⟨ck, hs, hi, ht, hst, hsteps, hend⟩ :=
      stepN_invariant env mode k (start_transition env mode end_lengths c)
        (start_transition_tstate ..) (by rw [hidx]; omega)
    rw [hidx, zero_add] at hi
    have hlt : ck.transition_step_index < ck.transition_steps := by
      rw [hi, hsteps]
      exact hk
    exact ⟨ck, midEvent mode ck, hs, hi,
      handle_step_mid env mode ck ht hlt,
      by rw [midSucc_index, hi]⟩
  · obtain ⟨cs, hs, hi, ht, hst, hsteps, hend⟩ :=
      stepN_invariant env mode
        (start_transition env mode end_lengths c).transition_steps.toNat
        (start_transition env mode end_lengths c)
        (start_transition_tstate ..)
        (by rw [hidx, zero_add, Int.toNat_of_nonneg (by omega)])
    rw [hidx, zero_add, Int.toNat_of_nonneg (by omega : (0:ℤ) ≤
      (start_transition env mode end_lengths c).transition_steps)] at hi
    have hcomp := handle_step_complete env mode cs hmode ht
      (by rw [hst, start_transition_state, hstate])
      (by rw [hsteps, hi])
    refine ⟨cs, completeSucc mode cs,
      ⟨if mode = "activating" then 100 else 0, cs.transition_end_lengths⟩,
      hs, hi, hcomp, ?_, rfl, rfl, ?_⟩
    · rw [show (completeSucc mode cs).muscle_lengths = cs.transition_end_lengths from rfl,
        hend, start_transition_end]
    · rw [show (⟨if mode = "activating" then 100 else 0, cs.transition_end_lengths⟩ :
          ProgressEvent).lengths = cs.transition_end_lengths from rfl,
        hend, start_transition_end]

theorem started_transition_terminates_witness :
    (("activating" : String) = "activating" ∨ ("activating" : String) = "deactivating") ∧
    activatingCore.state = "activating" ∧
    (1 ≤ (start_transition demoEnv "activating" (List.replicate 6 995)
        activatingCore).transition_steps ∧
    (∀ k : ℕ, (k : ℤ) < (start_transition demoEnv "activating" (List.replicate 6 995)
        activatingCore).transition_steps →
      ∃ ck ev, stepN demoEnv k (start_transition demoEnv "activating" (List.replicate 6 995)
          activatingCore) = Except.ok ck ∧
        ck.transition_step_index = (k : ℤ) ∧
        handle_transition_step demoEnv ck = Except.ok (midSucc ck, true, [ev]) ∧
        (midSucc ck).transition_step_index = (k : ℤ) + 1) ∧
    (∃ cs cfin ev,
      stepN demoEnv (start_transition demoEnv "activating" (List.replicate 6 995)
          activatingCore).transition_steps.toNat
        (start_transition demoEnv "activating" (List.replicate 6 995) activatingCore) =
          Except.ok cs ∧
      cs.transition_step_index = (start_transition demoEnv "activating"
        (List.replicate 6 995) activatingCore).transition_steps ∧
      handle_transition_step demoEnv cs = Except.ok (cfin, false, [ev]) ∧
      cfin.muscle_lengths = List.replicate 6 995 ∧
      cfin.transition_state = none ∧
      ev.percent = (if ("activating" : String) = "activating" then 100 else 0) ∧
      ev.lengths = List.replicate 6 995)) :=
  ⟨Or.inl rfl, rfl,
   started_transition_terminates demoEnv "activating" (List.replicate 6 995)
     activatingCore (Or.inl rfl) rfl⟩

/-!
## Neutral-height search claims (C8)
-/

theorem sweep_eq_some (base : List Pt3) (plat : List (ℚ × ℚ)) (minAct zmin : ℚ) :
    ∀ (fuel k0 : ℕ) (z : ℚ),
      sweep base plat minAct zmin fuel k0 = some z ↔
      ∃ j : ℕ, j < fuel ∧ z = zmin + (k0 + j : ℕ) ∧
        any_at_min base plat minAct (zmin + (k0 + j : ℕ)) = true ∧
        ∀ i : ℕ, i < j → any_at_min base plat minAct (zmin + (k0 + i : ℕ)) = false := by
  intro fuel
  induction fuel with
  | zero =>
    intro k0 z
    simp [sweep]
  | succ m ih =>
    intro k0 z
    rw [sweep]
    by_cases h : any_at_min base plat minAct (zmin + k0) = true
    · rw [if_pos h]
      constructor
      · intro hz
        refine ⟨0, Nat.succ_pos m, ?_, ?_, by omega⟩
        · rw [Nat.add_zero]
          exact (Option.some_inj.mp hz).symm
        · rw [Nat.add_zero]
          exact h
      · rintro ⟨j, hj, hzv, htr, hmin⟩
        rcases Nat.eq_zero_or_pos j with hj0 | hj0
        · subst hj0
          rw [Nat.add_zero] at hzv
          rw [hzv]
        · exact absurd h (by simpa using hmin 0 hj0)
    · rw [if_neg h]
      rw [ih (k0 + 1) z]
      constructor
      · rintro ⟨j, hj, hzv, htr, hmin⟩
        refine ⟨j + 1, by omega, by rw [show k0 + (j + 1) = k0 + 1 + j by ring]; exact hzv,
          by rw [show k0 + (j + 1) = k0 + 1 + j by ring]; exact htr, ?_⟩
        intro i hi
        rcases Nat.eq_zero_or_pos i with hi0 | hi0
        · subst hi0
          rw [Nat.add_zero]
          exact eq_false_of_ne_true h
        · have := hmin (i - 1) (by omega)
          rw [show k0 + 1 + (i - 1) = k0 + i by omega] at this
          exact this
      · rintro ⟨j, hj, hzv, htr, hmin⟩
        rcases Nat.eq_zero_or_pos j with hj0 | hj0
        · subst hj0
          rw [Nat.add_zero] at htr
          exact absurd htr h
        · refine ⟨j - 1, by omega, by rw [show k0 + 1 + (j - 1) = k0 + j by omega]; exact hzv,
            by rw [show k0 + 1 + (j - 1) = k0 + j by omega]; exact htr, ?_⟩
          intro i hi
          have := hmin (i + 1) (by omega)
          rw [show k0 + (i + 1) = k0 + 1 + i by ring] at this
          exact this

theorem sweep_eq_none (base : List Pt3) (plat : List (ℚ × ℚ)) (minAct zmin : ℚ) :
    ∀ (fuel k0 : ℕ),
      sweep base plat minAct zmin fuel k0 = none ↔
      ∀ j : ℕ, j < fuel → any_at_min base plat minAct (zmin + (k0 + j : ℕ)) = false := by
  intro fuel
  induction fuel with
  | zero =>
    intro k0
    simp [sweep]
  | succ m ih =>
    intro k0
    rw [sweep]
    by_cases h : any_at_min base plat minAct (zmin + k0) = true
    · rw [if_pos h]
      simp only [reduceCtorEq, false_iff, not_forall]
      exact ⟨0, Nat.succ_pos m, by rw [Nat.add_zero, h]; decide⟩
    · rw [if_neg h, ih (k0 + 1)]
      constructor
      · intro hall j hj
        rcases Nat.eq_zero_or_pos j with hj0 | hj0
        · subst hj0
          rw [Nat.add_zero]
          exact eq_false_of_ne_true h
        · have := hall (j - 1) (by omega)
          rw [show k0 + 1 + (j - 1) = k0 + j by omega] at this
          exact this
      · intro hall j hj
        have := hall (j + 1) (by omega)
        rw [show k0 + (j + 1) = k0 + 1 + j by ring] at this
        exact this

/-- C8 (amended): `set_geometry` searches candidate heights
`z = clearance_offset + k` (1 mm steps, `z < 1000`) and selects the FIRST
height at which any actuator length has come down to
`min_actuator_len`, returning the neutral height
`mid_z = (clearance_offset + z)/2`; it raises a configuration error
exactly when no candidate triggers. It checks neither the feasibility of
the returned height nor closeness of mean actuator length to the range
midpoint. -/
theorem set_geometry_first_trigger (base_coords : List Pt3)
    (platform_coords_xy : List (ℚ × ℚ)) (minAct clearance m : ℚ) :
    (set_geometry_mid_z base_coords platform_coords_xy minAct clearance = some m ↔
      ∃ j : ℕ, j < (⌈(1000 - clearance : ℚ)⌉).toNat ∧
        m = (clearance + (clearance + j)) / 2 ∧
        any_at_min (prep_base base_coords) (prep_platform platform_coords_xy) minAct
          (clearance + j) = true ∧
        ∀ i : ℕ, i < j →
          any_at_min (prep_base base_coords) (prep_platform platform_coords_xy) minAct
            (clearance + i) = false) ∧
    (set_geometry_mid_z base_coords platform_coords_xy minAct clearance = none ↔
      ∀ j : ℕ, j < (⌈(1000 - clearance : ℚ)⌉).toNat →
        any_at_min (prep_base base_coords) (prep_platform platform_coords_xy) minAct
          (clearance + j) = false) := by
  constructor
  · rw [set_geometry_mid_z, Option.map_eq_some']
    constructor
    · rintro ⟨zmax, hz, hm⟩
      obtain ⟨j, hj, hzv, htr, hmin⟩ :=
        (sweep_eq_some (prep_base base_coords) (prep_platform platform_coords_xy)
          minAct clearance _ 0 zmax).mp hz
      rw [Nat.zero_add] at hzv htr
      refine ⟨j, hj, by rw [← hm, hzv], htr, ?_⟩
      intro i hi
      have := hmin i hi
      rwa [Nat.zero_add] at this
    · rintro ⟨j, hj, hm, htr, hmin⟩
      refine ⟨clearance + j, ?_, hm.symm⟩
      rw [sweep_eq_some]
      exact ⟨j, hj, by rw [Nat.zero_add], by rw [Nat.zero_add]; exact htr,
        fun i hi => by rw [Nat.zero_add]; exact hmin i hi⟩
  · rw [set_geometry_mid_z, Option.map_eq_none', sweep_eq_none]
    constructor
    · intro hall j hj
      have := hall j hj
      rwa [Nat.zero_add] at this
    · intro hall j hj
      rw [Nat.zero_add]
      exact hall j hj

/-- Concrete 6-point geometry for the C8 counterexample: every platform
point sits directly below its base point at height 84, so each actuator
length at candidate height `z` is `|84 - z|`. -/
def cxBase : List Pt3 :=
  [⟨0, 0, 84⟩, ⟨1, 0, 84⟩, ⟨2, 0, 84⟩, ⟨3, 0, 84⟩, ⟨4, 0, 84⟩, ⟨5, 0, 84⟩]

def cxPlat : List (ℚ × ℚ) := [(0, 0), (1, 0), (2, 0), (3, 0), (4, 0), (5, 0)]

/-- C8 counterexample: with `min_actuator_len = 30`, `max_actuator_len = 31`
and `clearance_offset = 50`, the sweep triggers first at `z = 54` and
`set_geometry` returns the neutral height `52`, where every actuator length
is `32 > max_actuator_len` — an infeasible height — although the feasible
candidate `z = 53` exists in the searched range. The code therefore does
not select a feasible height of mean length closest to the range midpoint,
nor fail when it picks an infeasible one. -/
theorem set_geometry_not_feasible_cx :
    set_geometry_mid_z cxBase cxPlat 30 50 = some 52 ∧
    feasible_at cxBase cxPlat 30 31 52 = false ∧
    feasible_at cxBase cxPlat 30 31 53 = true := by
  refine ⟨?_, ?_, ?_⟩
  · rw [(set_geometry_first_trigger cxBase cxPlat 30 50 52).1]
    refine ⟨4, by norm_num, by norm_num, ?_, ?_⟩
    · norm_num [any_at_min, prep_base, prep_platform, cxBase, cxPlat, dist2]
    · intro i hi
      interval_cases i <;>
        norm_num [any_at_min, prep_base, prep_platform, cxBase, cxPlat, dist2]
  · norm_num [feasible_at, cxBase, cxPlat, dist2]
  · norm_num [feasible_at, cxBase, cxPlat, dist2]

end SimOp
